import Mathlib

/-!
Verification of the barcode decoding backend (`backend_barcode`).

The development shallowly embeds the TypeScript sources:
  * `src/utils/realBarcodeDecoder.ts`  (class `RealBarcodeDecoder`)
  * `src/utils/simpleBarcodeScanner.ts` (class `SimpleBarcodeScanner`)
  * `src/utils/barcodeScanner.ts`       (class `BarcodeScanner`)
  * the `ImprovedBarcodeScanner` variant

JavaScript numbers are modelled exactly: integer quantities as `ℕ`/`ℤ`
and fractional arithmetic as `ℚ` (exact rational arithmetic; at the
magnitudes used by these functions IEEE doubles and exact rationals
agree on every comparison the code performs).  `Math.round x` is
`⌊x + 1/2⌋` (JavaScript rounds halves toward +∞).  Fallible functions
returning `null` are modelled with `Option`.
-/

set_option maxRecDepth 100000

section BarcodeBackend

-- Batteries marks the arithmetic on `Rat` irreducible; re-enable unfolding so
-- that concrete runs of the embedded functions can be checked by `decide`.
attribute [local semireducible] Rat.mul Rat.add Rat.sub Rat.inv

/-- JavaScript `Math.round`: rounds half toward positive infinity. -/
def jsRound (x : ℚ) : ℤ := ⌊x + 1 / 2⌋

/-- JavaScript `array.join('')` for an array of numbers: each element is
rendered in decimal and the pieces are concatenated. -/
def jsJoin (l : List ℤ) : String := String.join (l.map toString)

namespace RealBarcodeDecoder

/-- Scan result record of `realBarcodeDecoder.ts` (interface
`BarcodeScanResult`): optional fields become `Option`. -/
structure BarcodeScanResult where
  success : Bool
  barcode : Option String
  error : Option String
  debugInfo : Option String
  deriving Repr, DecidableEq

/-- Static table `EAN13_LEFT_PATTERNS` (keys kept in source order). -/
def EAN13_LEFT_PATTERNS : List (Char × List ℤ) :=
  [ ('0', [0, 0, 0, 1, 1, 0, 1])
  , ('1', [0, 0, 1, 1, 0, 0, 1])
  , ('2', [0, 0, 1, 0, 0, 1, 1])
  , ('3', [0, 1, 1, 1, 1, 0, 1])
  , ('4', [0, 1, 0, 0, 0, 1, 1])
  , ('5', [0, 1, 1, 0, 0, 0, 1])
  , ('6', [0, 1, 0, 1, 1, 1, 1])
  , ('7', [0, 1, 1, 1, 0, 1, 1])
  , ('8', [0, 1, 1, 0, 1, 1, 1])
  , ('9', [0, 0, 0, 1, 0, 1, 1]) ]

/-- Static table `EAN13_RIGHT_PATTERNS`. -/
def EAN13_RIGHT_PATTERNS : List (Char × List ℤ) :=
  [ ('0', [1, 1, 1, 0, 0, 1, 0])
  , ('1', [1, 1, 0, 0, 1, 1, 0])
  , ('2', [1, 1, 0, 1, 1, 0, 0])
  , ('3', [1, 0, 0, 0, 0, 1, 0])
  , ('4', [1, 0, 1, 1, 1, 0, 0])
  , ('5', [1, 0, 0, 1, 1, 1, 0])
  , ('6', [1, 0, 1, 0, 0, 0, 0])
  , ('7', [1, 0, 0, 0, 1, 0, 0])
  , ('8', [1, 0, 0, 1, 0, 0, 0])
  , ('9', [1, 1, 1, 0, 1, 0, 0]) ]

/-- Static table `CODE128_PATTERNS` (simplified 10-entry digit table). -/
def CODE128_PATTERNS : List (Char × List ℤ) :=
  [ ('0', [2, 1, 2, 2, 2, 2])
  , ('1', [2, 2, 2, 1, 2, 2])
  , ('2', [2, 2, 2, 2, 2, 1])
  , ('3', [1, 2, 1, 2, 2, 3])
  , ('4', [1, 2, 1, 3, 2, 2])
  , ('5', [1, 3, 1, 2, 2, 2])
  , ('6', [1, 2, 2, 2, 1, 3])
  , ('7', [1, 2, 2, 3, 1, 2])
  , ('8', [1, 3, 2, 2, 1, 2])
  , ('9', [2, 2, 1, 2, 1, 3]) ]

/-- Number of positions at which the two strings carry equal characters
(the loop body of `patternMatch`). -/
def matchCount (p1 p2 : String) : ℕ :=
  (p1.toList.zip p2.toList).countP (fun c => c.1 == c.2)

/-- Embedding of `RealBarcodeDecoder.patternMatch`: fuzzy comparison; unequal lengths
never match, otherwise the number of agreeing positions must reach
`pattern1.length * 0.8`. -/
def patternMatch (p1 p2 : String) : Bool :=
  if p1.length ≠ p2.length then false
  else decide ((p1.length : ℚ) * (8 / 10) ≤ (matchCount p1 p2 : ℚ))

/-- Embedding of `decodeEAN13LeftDigit`: reject non-7-module patterns, then return the
first table digit whose rendered pattern fuzzily matches. -/
def decodeEAN13LeftDigit (pattern : List ℤ) : Option Char :=
  if pattern.length ≠ 7 then none
  else
    (EAN13_LEFT_PATTERNS.find? fun e => patternMatch (jsJoin pattern) (jsJoin e.2)).map
      (fun e => e.1)

/-- Embedding of `decodeEAN13RightDigit`: as the left-digit decoder, against the right
pattern table. -/
def decodeEAN13RightDigit (pattern : List ℤ) : Option Char :=
  if pattern.length ≠ 7 then none
  else
    (EAN13_RIGHT_PATTERNS.find? fun e => patternMatch (jsJoin pattern) (jsJoin e.2)).map
      (fun e => e.1)

/-- Embedding of `decodeCode128Character`: 6-module character groups against the
Code 128 digit table. -/
def decodeCode128Character (pattern : List ℤ) : Option Char :=
  if pattern.length ≠ 6 then none
  else
    (CODE128_PATTERNS.find? fun e => patternMatch (jsJoin pattern) (jsJoin e.2)).map
      (fun e => e.1)

/-- Value of a decimal digit character (models JavaScript
`parseInt(c)` on the digit characters this code ever feeds it). -/
def digitVal (c : Char) : ℕ := c.toNat - 48

/-- Index-weighted digit sum of `calculateEAN13CheckDigit`: weight 1 at
even 0-based positions and 3 at odd ones.  `i` is the running loop
index. -/
def ean13WeightedSum : ℕ → List Char → ℕ
  | _, [] => 0
  | i, c :: cs =>
      (if i % 2 = 0 then digitVal c else digitVal c * 3) + ean13WeightedSum (i + 1) cs

/-- Embedding of `calculateEAN13CheckDigit`: `((10 - (sum % 10)) % 10).toString()`. -/
def calculateEAN13CheckDigit (digits : String) : String :=
  Nat.repr ((10 - ean13WeightedSum 0 digits.toList % 10) % 10)

/-- Index-weighted digit sum of `calculateEAN8CheckDigit` and
`calculateUPCACheckDigit`: weight 3 at even 0-based positions, 1 at odd
ones. -/
def mirroredWeightedSum : ℕ → List Char → ℕ
  | _, [] => 0
  | i, c :: cs =>
      (if i % 2 = 0 then digitVal c * 3 else digitVal c) + mirroredWeightedSum (i + 1) cs

/-- Embedding of `calculateEAN8CheckDigit`. -/
def calculateEAN8CheckDigit (digits : String) : String :=
  Nat.repr ((10 - mirroredWeightedSum 0 digits.toList % 10) % 10)

/-- Embedding of `calculateUPCACheckDigit` (same body as the EAN-8 variant in the
source). -/
def calculateUPCACheckDigit (digits : String) : String :=
  Nat.repr ((10 - mirroredWeightedSum 0 digits.toList % 10) % 10)

/-- Embedding of `validateBarcode`: strip non-digit characters (`replace(/\D/g, '')`)
and accept a digit count between 8 and 20. -/
def validateBarcode (barcode : String) : Bool :=
  let numericBarcode : String := String.mk (barcode.toList.filter Char.isDigit)
  decide (8 ≤ numericBarcode.length) && decide (numericBarcode.length ≤ 20)

/-- The `for (let i = 0; i < widths.length - 2; i++)` search for the
`1-0-1` start guard shared by `decodeEAN13`, `extractEAN8Digits` and
`extractUPCDigits`: index of the first occurrence, `none` when absent. -/
def findStartGuard (widths : List ℤ) : Option ℕ :=
  (List.range (widths.length - 2)).find? fun i =>
    widths.getD i 0 == 1 && widths.getD (i + 1) 0 == 0 && widths.getD (i + 2) 0 == 1

/-- Digit-extraction loop shared by the extract functions
(`for (let i = 0; i < count; i++) { if (currentIndex + 7 > widths.length)
break; ...}`).  Returns the collected digits together with the index after
the last consumed pattern; `none` models the `return null` taken when a
7-module group decodes to no digit. -/
def extractDigitsLoop (dec : List ℤ → Option Char) (widths : List ℤ) :
    ℕ → ℕ → Option (List Char × ℕ)
  | 0, currentIndex => some ([], currentIndex)
  | count + 1, currentIndex =>
    if currentIndex + 7 > widths.length then some ([], currentIndex)
    else
      match dec ((widths.drop currentIndex).take 7) with
      | some digit =>
          (extractDigitsLoop dec widths count (currentIndex + 7)).map
            fun r => (digit :: r.1, r.2)
      | none => none

/-- Embedding of `extractEAN13LeftDigits`: up to 6 left digits starting at
`startIndex` (a `break` on running out of modules returns the digits
collected so far, which the caller rejects by the length-6 check). -/
def extractEAN13LeftDigits (widths : List ℤ) (startIndex : ℕ) : Option (List Char) :=
  (extractDigitsLoop decodeEAN13LeftDigit widths 6 startIndex).map fun r => r.1

/-- Embedding of `extractEAN13RightDigits`. -/
def extractEAN13RightDigits (widths : List ℤ) (startIndex : ℕ) : Option (List Char) :=
  (extractDigitsLoop decodeEAN13RightDigit widths 6 startIndex).map fun r => r.1

/-- Embedding of `decodeEAN13`: length precondition, start guard, 6 left digits,
middle guard `0-1-0-1-0`, 6 right digits; the 12 decoded digits are then
extended with the COMPUTED check digit (no checksum comparison against
the symbol takes place).  The source constants are inlined:
`middleIndex = startIndex + 3 + 6 * 7`, `allDigits = leftDigits ++
rightDigits`. -/
def decodeEAN13 (widths : List ℤ) : Option String :=
  if widths.length < 95 then none
  else
    match findStartGuard widths with
    | none => none
    | some startIndex =>
      match extractEAN13LeftDigits widths (startIndex + 3) with
      | none => none
      | some leftDigits =>
        if leftDigits.length ≠ 6 then none
        else if startIndex + 3 + 6 * 7 + 4 ≥ widths.length then none
        else if ¬(widths.getD (startIndex + 3 + 6 * 7) 0 = 0 ∧
            widths.getD (startIndex + 3 + 6 * 7 + 1) 0 = 1 ∧
            widths.getD (startIndex + 3 + 6 * 7 + 2) 0 = 0 ∧
            widths.getD (startIndex + 3 + 6 * 7 + 3) 0 = 1 ∧
            widths.getD (startIndex + 3 + 6 * 7 + 4) 0 = 0) then none
        else
          match extractEAN13RightDigits widths (startIndex + 3 + 6 * 7 + 5) with
          | none => none
          | some rightDigits =>
            if rightDigits.length ≠ 6 then none
            else
              some (String.mk (leftDigits ++ rightDigits) ++
                calculateEAN13CheckDigit (String.mk (leftDigits ++ rightDigits)))

/-- Embedding of `extractEAN8Digits`: start guard, 4 left digits, skip 5 middle
modules unchecked, 3 right digits, require 7 digits total. -/
def extractEAN8Digits (widths : List ℤ) : Option String :=
  match findStartGuard widths with
  | none => none
  | some startIndex =>
    match extractDigitsLoop decodeEAN13LeftDigit widths 4 (startIndex + 3) with
    | none => none
    | some (leftPart, cur) =>
      match extractDigitsLoop decodeEAN13RightDigit widths 3 (cur + 5) with
      | none => none
      | some (rightPart, _) =>
        let digits := leftPart ++ rightPart
        if digits.length = 7 then some (String.mk digits) else none

/-- Embedding of `decodeEAN8`. -/
def decodeEAN8 (widths : List ℤ) : Option String :=
  if widths.length < 67 then none
  else
    match extractEAN8Digits widths with
    | some digits =>
        if digits.length = 7 then some (digits ++ calculateEAN8CheckDigit digits) else none
    | none => none

/-- The `while` loop of `extractCode128Data`, with fuel for termination
(each successful step advances by 6 modules, so `widths.length + 1` steps
always suffice). -/
def extractCode128DataLoop (widths : List ℤ) : ℕ → ℕ → List Char
  | 0, _ => []
  | fuel + 1, currentIndex =>
    if currentIndex < widths.length - 6 then
      if currentIndex + 6 > widths.length then []
      else
        match decodeCode128Character ((widths.drop currentIndex).take 6) with
        | some c => c :: extractCode128DataLoop widths fuel (currentIndex + 6)
        | none => []
    else []

/-- Embedding of `extractCode128Data`: collect 6-module characters until a decode
failure or exhaustion; an empty collection is `null`. -/
def extractCode128Data (widths : List ℤ) (startIndex : ℕ) : Option String :=
  let data := extractCode128DataLoop widths (widths.length + 1) startIndex
  if data.length > 0 then some (String.mk data) else none

/-- Embedding of `decodeCode128`: length precondition and `2-1-1` start-guard search
(loop bound `widths.length - 3`). -/
def decodeCode128 (widths : List ℤ) : Option String :=
  if widths.length < 20 then none
  else
    match (List.range (widths.length - 3)).find? (fun i =>
        widths.getD i 0 == 2 && widths.getD (i + 1) 0 == 1 && widths.getD (i + 2) 0 == 1) with
    | none => none
    | some startIndex => extractCode128Data widths (startIndex + 3)

/-- Embedding of `extractUPCDigits`: start guard, 6 left digits, skip 5 middle
modules unchecked, 5 right digits, require 11 digits total. -/
def extractUPCDigits (widths : List ℤ) : Option String :=
  match findStartGuard widths with
  | none => none
  | some startIndex =>
    match extractDigitsLoop decodeEAN13LeftDigit widths 6 (startIndex + 3) with
    | none => none
    | some (leftPart, cur) =>
      match extractDigitsLoop decodeEAN13RightDigit widths 5 (cur + 5) with
      | none => none
      | some (rightPart, _) =>
        let digits := leftPart ++ rightPart
        if digits.length = 11 then some (String.mk digits) else none

/-- Embedding of `decodeUPC`. -/
def decodeUPC (widths : List ℤ) : Option String :=
  if widths.length < 51 then none
  else
    match extractUPCDigits widths with
    | some digits =>
        if digits.length = 11 then some (digits ++ calculateUPCACheckDigit digits) else none
    | none => none

/-- Loop state of Otsu's method in `calculateThreshold` (`sumB`, `wB`,
`varMax`, `threshold`); `done` records that the `break` on `wF === 0`
has fired. -/
structure OtsuState where
  sumB : ℚ
  wB : ℚ
  varMax : ℚ
  threshold : ℕ
  done : Bool

/-- One iteration of the `for (let t = 0; t < 256; t++)` loop of
`calculateThreshold`, including the `continue` on `wB === 0` and the
`break` on `wF === 0`. -/
def otsuStep (hist : ℕ → ℕ) (total : ℕ) (sum : ℕ) (s : OtsuState) (t : ℕ) : OtsuState :=
  if s.done then s
  else
    let wB := s.wB + (hist t : ℚ)
    if wB = 0 then { s with wB := wB }
    else
      let wF := (total : ℚ) - wB
      if wF = 0 then { s with wB := wB, done := true }
      else
        let sumB := s.sumB + (t : ℚ) * (hist t : ℚ)
        let mB := sumB / wB
        let mF := ((sum : ℚ) - sumB) / wF
        let varBetween := wB * wF * (mB - mF) * (mB - mF)
        if varBetween > s.varMax then
          { sumB := sumB, wB := wB, varMax := varBetween, threshold := t, done := false }
        else
          { s with sumB := sumB, wB := wB }

/-- Embedding of `calculateThreshold` (Otsu's method): 256-bin histogram (modelled as
the count function of the line), total mass, weighted intensity sum,
then the variance-maximizing scan. -/
def calculateThreshold (line : List ℕ) : ℕ :=
  let hist : ℕ → ℕ := fun v => line.count v
  let total := line.length
  let sum := (List.range 256).foldl (fun acc i => acc + i * hist i) 0
  ((List.range 256).foldl (otsuStep hist total sum) ⟨0, 0, 0, 0, false⟩).threshold

/-- The shared binarization step of `analyzeBarcodeLine` and
`decodeBarcodeFromLine`: `pixel < threshold ? 0 : 1` under the Otsu
threshold of the line. -/
def binarizeLine (line : List ℕ) : List ℕ :=
  let threshold := calculateThreshold line
  line.map fun pixel => if pixel < threshold then 0 else 1

/-- Transition-index collection of `decodeBarcodeFromLine`
(`for (let i = 1; ...) if (binary[i] !== binary[i-1]) transitions.push(i)`). -/
def findTransitions (binary : List ℕ) : List ℕ :=
  (List.range' 1 (binary.length - 1)).filter fun i =>
    binary.getD i 0 != binary.getD (i - 1) 0

/-- Transitions of a raw intensity line: binarize, then collect flips. -/
def lineTransitions (line : List ℕ) : List ℕ :=
  findTransitions (binarizeLine line)

/-- Consecutive-transition deltas
(`for (let i = 1; ...) barWidths.push(transitions[i] - transitions[i-1])`);
this loop appears verbatim in `realBarcodeDecoder.ts`,
`barcodeScanner.ts` and the `ImprovedBarcodeScanner` variant. -/
def barWidthsOf (transitions : List ℕ) : List ℤ :=
  (transitions.zip transitions.tail).map fun p => (p.2 : ℤ) - (p.1 : ℤ)

/-- Embedding of `Math.min(...barWidths)`; only ever applied to non-empty lists by
the source (the empty case is unreachable behind the transition-count
gate). -/
def minWidth : List ℤ → ℤ
  | [] => 0
  | h :: t => t.foldl min h

/-- Width normalization of `decodeBarcodeFromLine` (also of
`ImprovedBarcodeScanner.decodeBarcodeFromTransitions`):
`Math.round(width / minWidth)` for every width. -/
def normalizeWidths (barWidths : List ℤ) : List ℤ :=
  barWidths.map fun w : ℤ => jsRound ((w : ℚ) / (minWidth barWidths : ℚ))

/-- Digits an EAN-13 symbol encodes according to the decoder's own
geometry (stated for comparison with `decodeEAN13`, following the
spec's reading of the symbol): identical length gate, guard checks and
digit extraction, but the 12 decoded digits are returned as they stand,
without the appended check digit. -/
def specEAN13SymbolDigits (widths : List ℤ) : Option String :=
  if widths.length < 95 then none
  else
    match findStartGuard widths with
    | none => none
    | some startIndex =>
      match extractEAN13LeftDigits widths (startIndex + 3) with
      | none => none
      | some leftDigits =>
        if leftDigits.length ≠ 6 then none
        else if startIndex + 3 + 6 * 7 + 4 ≥ widths.length then none
        else if ¬(widths.getD (startIndex + 3 + 6 * 7) 0 = 0 ∧
            widths.getD (startIndex + 3 + 6 * 7 + 1) 0 = 1 ∧
            widths.getD (startIndex + 3 + 6 * 7 + 2) 0 = 0 ∧
            widths.getD (startIndex + 3 + 6 * 7 + 3) 0 = 1 ∧
            widths.getD (startIndex + 3 + 6 * 7 + 4) 0 = 0) then none
        else
          match extractEAN13RightDigits widths (startIndex + 3 + 6 * 7 + 5) with
          | none => none
          | some rightDigits =>
            if rightDigits.length ≠ 6 then none
            else some (String.mk (leftDigits ++ rightDigits))

/-- The `for` loop over the four format thunks in
`decodeBarcodeFromLine`, instrumented with the number of decoder
invocations (second component). -/
def runFormats : List (List ℤ → Option String) → List ℤ → ℕ → Option String × ℕ
  | [], _, invoked => (none, invoked)
  | f :: fs, w, invoked =>
    match f w with
    | some r => (some r, invoked + 1)
    | none => runFormats fs w (invoked + 1)

/-- Embedding of `decodeBarcodeFromLine`: threshold, binarize, collect transitions,
reject under 20 transitions, normalize bar widths, then try
EAN-13 / EAN-8 / Code 128 / UPC in order.  The second component counts
how many symbology decoders were invoked. -/
def decodeBarcodeFromLine (line : List ℕ) : Option String × ℕ :=
  let transitions := lineTransitions line
  if transitions.length < 20 then (none, 0)
  else
    let barWidths := barWidthsOf transitions
    let normalizedWidths := normalizeWidths barWidths
    runFormats [decodeEAN13, decodeEAN8, decodeCode128, decodeUPC] normalizedWidths 0

/-- Embedding of `RealBarcodeDecoder.scanFromImageBuffer`, abstracted over the two
collaborator outcomes: the jsQR result (`scanQRCode`) and the result of
the traditional 1-D pipeline (`decodeTraditionalBarcode`).  The Boolean
records whether the traditional pipeline was evaluated at all; the
image-size diagnostic strings are outside the model (`none`). -/
def scanFromImageBuffer (qrResult : Option String) (traditionalResult : Option String) :
    BarcodeScanResult × Bool :=
  match qrResult with
  | some qr =>
      ({ success := true, barcode := some qr, error := none,
         debugInfo := some ("QR Code detected: " ++ qr) }, false)
  | none =>
    match traditionalResult with
    | some b =>
        ({ success := true, barcode := some b, error := none, debugInfo := none }, true)
    | none =>
        ({ success := false, barcode := none,
           error := some "No barcode detected. Please ensure the barcode is clear and well-lit.",
           debugInfo := none }, true)

end RealBarcodeDecoder

namespace SimpleBarcodeScanner

/-- Embedding of `SimpleBarcodeScanner.calculateThreshold`: mean intensity,
`Math.round(sum / line.length)`. -/
def calculateThreshold (line : List ℕ) : ℤ :=
  jsRound ((line.sum : ℚ) / (line.length : ℚ))

/-- Transition count of `SimpleBarcodeScanner.analyzeLine` (a count, not
an index list, in this variant). -/
def countTransitions (binary : List ℕ) : ℕ :=
  (binary.zip binary.tail).countP fun p => p.1 != p.2

/-- Embedding of `SimpleBarcodeScanner.analyzeLine`: mean threshold, binarize, count
transitions; between 21 and 199 transitions it fabricates the fixed demo
payload `"5012345678900"` ("For demo purposes, return a test barcode"). -/
def analyzeLine (line : List ℕ) : Option String :=
  let threshold := calculateThreshold line
  let binary := line.map fun pixel : ℕ => if (pixel : ℤ) < threshold then 0 else 1
  let transitions := countTransitions binary
  if 20 < transitions ∧ transitions < 200 then some "5012345678900" else none

/-- Embedding of `SimpleBarcodeScanner.scanSimpleBarcode`, abstracted over the rows
the y-loop samples from the grayscaled image: first `analyzeLine` hit. -/
def scanSimpleBarcode (sampledLines : List (List ℕ)) : Option String :=
  sampledLines.findSome? analyzeLine

/-- Embedding of `SimpleBarcodeScanner.scanFromImageBuffer`, abstracted over the jsQR
collaborator outcome and the sampled rows.  When both the QR path and
`scanSimpleBarcode` fail it returns `success: true` with the fixed test
barcode `"5901234123457"` ("If all else fails, return a test barcode for
demonstration"). -/
def scanFromImageBuffer (qrResult : Option String) (sampledLines : List (List ℕ)) :
    RealBarcodeDecoder.BarcodeScanResult :=
  match qrResult with
  | some qr =>
      { success := true, barcode := some qr, error := none,
        debugInfo := some ("QR Code detected: " ++ qr) }
  | none =>
    match scanSimpleBarcode sampledLines with
    | some b =>
        { success := true, barcode := some b, error := none, debugInfo := none }
    | none =>
        { success := true, barcode := some "5901234123457", error := none,
          debugInfo := some "Demo mode - no real barcode detected" }

end SimpleBarcodeScanner

namespace ImprovedBarcodeScanner

/-- Embedding of `ImprovedBarcodeScanner.patternMatch`: same counting loop as
`RealBarcodeDecoder.patternMatch` but with a 70% threshold
(`matches >= pattern1.length * 0.7`). -/
def patternMatch (p1 p2 : String) : Bool :=
  if p1.length ≠ p2.length then false
  else decide ((p1.length : ℚ) * (7 / 10) ≤ (RealBarcodeDecoder.matchCount p1 p2 : ℚ))

end ImprovedBarcodeScanner

namespace BarcodeScanner

/-- The average-based width normalization of
`BarcodeScanner.decodeBarcodeFromTransitions` (`barcodeScanner.ts`):
`avgWidth = sum / count`, `Math.round(width / avgWidth)` — this variant
divides by the AVERAGE width, not the minimum. -/
def normalizedWidthsOfTransitions (transitions : List ℕ) : List ℤ :=
  let barWidths := RealBarcodeDecoder.barWidthsOf transitions
  let avgWidth : ℚ := (barWidths.sum : ℚ) / (barWidths.length : ℚ)
  barWidths.map fun w : ℤ => jsRound ((w : ℚ) / avgWidth)

/-- Placeholder EAN-13 branch of `barcodeScanner.ts`: when the first 20
normalized widths contain the characters 1, 2 and 3 it returns the fixed
test payload. -/
def decodeEAN13 (widths : List ℤ) : Option String :=
  if widths.length < 59 then none
  else
    let pattern := jsJoin (widths.take 20)
    if pattern.contains '1' && pattern.contains '2' && pattern.contains '3' then
      some "5901234123457"
    else none

/-- Placeholder Code 128 branch of `barcodeScanner.ts`. -/
def decodeCode128 (widths : List ℤ) : Option String :=
  if widths.length < 20 then none
  else
    let pattern := jsJoin (widths.take 15)
    if pattern.contains '1' && pattern.contains '2' then some "5012345678900" else none

/-- Embedding of `BarcodeScanner.decodeBarcodeFromTransitions`: reject fewer than 20
transitions, normalize by the average width, then dispatch on length
(the `lineLength` argument is unused by the source as well). -/
def decodeBarcodeFromTransitions (transitions : List ℕ) (_lineLength : ℕ) : Option String :=
  if transitions.length < 20 then none
  else
    let normalizedWidths := normalizedWidthsOfTransitions transitions
    if 59 ≤ normalizedWidths.length then decodeEAN13 normalizedWidths
    else if 20 ≤ normalizedWidths.length then decodeCode128 normalizedWidths
    else none

end BarcodeScanner

/-- A 95-module sequence that structurally matches every EAN-13 guard:
start `101`, six left-table `0` digits, middle `01010`, five right-table
`0` digits, one right-table `5` digit, end `101`.  Read as a genuine
EAN-13 symbol (single left table = all-L parity = leading digit 0), its
encoded check digit `5` is wrong: the checksum of its first twelve
digits `000000000000` is `0`. -/
def ean13BadChecksumWidths : List ℤ :=
  [1, 0, 1] ++ List.flatten (List.replicate 6 [0, 0, 0, 1, 1, 0, 1]) ++
    [0, 1, 0, 1, 0] ++ List.flatten (List.replicate 5 [1, 1, 1, 0, 0, 1, 0]) ++
    [1, 0, 0, 1, 1, 1, 0] ++ [1, 0, 1]

/-- C2: on an input where no strategy finds anything (uniform gray
rows, jsQR reporting nothing), `SimpleBarcodeScanner.scanFromImageBuffer`
does NOT return `success = false` with a no-barcode error: it fabricates
the fixed demo payload `"5901234123457"` as a successful result.  The
`RealBarcodeDecoder` orchestrator, by contrast, does return the
no-barcode failure the claim describes. -/
theorem simple_scanner_fabricates_demo_payload :
    SimpleBarcodeScanner.scanFromImageBuffer none [List.replicate 10 128] =
      { success := true, barcode := some "5901234123457", error := none,
        debugInfo := some "Demo mode - no real barcode detected" } ∧
    RealBarcodeDecoder.scanFromImageBuffer none none =
      ({ success := false, barcode := none,
         error := some "No barcode detected. Please ensure the barcode is clear and well-lit.",
         debugInfo := none }, true) := by
  constructor
  · decide
  · rfl

/-- C3: on the synthetic bimodal line with half its pixels at intensity
30 and half at 220, the Otsu threshold computed by `calculateThreshold`
is exactly 30 — not strictly between 30 and 220 — and the strict
`pixel < threshold` binarization therefore maps EVERY pixel (the 30s
included) to 1 instead of classifying the halves apart. -/
theorem otsu_bimodal_threshold_misclassifies :
    RealBarcodeDecoder.calculateThreshold [30, 30, 220, 220] = 30 ∧
    RealBarcodeDecoder.binarizeLine [30, 30, 220, 220] = [1, 1, 1, 1] := by
  constructor
  · decide
  · decide

/-- C5: a line whose binarization yields fewer than 20 transitions is
rejected by `decodeBarcodeFromLine` before any symbology decoder runs:
the result is `none` and the decoder-invocation count is 0. -/
theorem too_few_transitions_rejected_before_decoders :
    ∀ line : List ℕ, (RealBarcodeDecoder.lineTransitions line).length < 20 →
      RealBarcodeDecoder.decodeBarcodeFromLine line = (none, 0) := by
  intro line h
  simp only [RealBarcodeDecoder.decodeBarcodeFromLine]
  rw [if_pos h]

/-- Witness for C5 at the empty line: it has no transitions, and the
pipeline rejects it with zero decoder invocations. -/
theorem too_few_transitions_rejected_before_decoders_witness :
    (RealBarcodeDecoder.lineTransitions []).length < 20 ∧
    RealBarcodeDecoder.decodeBarcodeFromLine [] = (none, 0) :=
  ⟨by decide, too_few_transitions_rejected_before_decoders [] (by decide)⟩

/-- C6: whenever the 2-D collaborator (`scanQRCode` / jsQR) reports a
payload, `scanFromImageBuffer` returns success with exactly that
payload and the traditional 1-D pipeline (transforms, binarization,
symbology decoders) is never evaluated (flag `false`), whatever that
pipeline would have produced. -/
theorem qr_priority_short_circuits :
    ∀ (qrResult traditionalResult : Option String) (payload : String),
      qrResult = some payload →
      RealBarcodeDecoder.scanFromImageBuffer qrResult traditionalResult =
        ({ success := true, barcode := some payload, error := none,
           debugInfo := some ("QR Code detected: " ++ payload) }, false) := by
  intro qrResult traditionalResult payload h
  subst h
  rfl

/-- Witness for C6 at the payload "HELLO" against a 1-D pipeline that
would have decoded something else. -/
theorem qr_priority_short_circuits_witness :
    RealBarcodeDecoder.scanFromImageBuffer (some "HELLO") (some "5901234123457") =
      ({ success := true, barcode := some "HELLO", error := none,
         debugInfo := some ("QR Code detected: " ++ "HELLO") }, false) :=
  qr_priority_short_circuits (some "HELLO") (some "5901234123457") "HELLO" rfl

/-- C9: `validateBarcode` accepts a string exactly when it contains
between 8 and 20 digit characters, and its verdict depends only on the
digit characters (inserting or removing non-digits cannot change it). -/
theorem validate_barcode_digit_count :
    ∀ s : String,
      (RealBarcodeDecoder.validateBarcode s = true ↔
        8 ≤ (s.toList.filter Char.isDigit).length ∧
          (s.toList.filter Char.isDigit).length ≤ 20) ∧
      (∀ t : String, s.toList.filter Char.isDigit = t.toList.filter Char.isDigit →
        RealBarcodeDecoder.validateBarcode s = RealBarcodeDecoder.validateBarcode t) := by
  intro s
  constructor
  · simp [RealBarcodeDecoder.validateBarcode, String.length]
  · intro t h
    have h' : s.data.filter Char.isDigit = t.data.filter Char.isDigit := h
    simp [RealBarcodeDecoder.validateBarcode, String.length, h']

/-- Witness for C9: evaluates both halves on concrete strings that
differ only by interleaved non-digit characters. -/
theorem validate_barcode_digit_count_witness :
    (RealBarcodeDecoder.validateBarcode "a12-34 5678x90b" = true ↔
      8 ≤ (("a12-34 5678x90b" : String).toList.filter Char.isDigit).length ∧
        (("a12-34 5678x90b" : String).toList.filter Char.isDigit).length ≤ 20) ∧
    (("a12-34 5678x90b" : String).toList.filter Char.isDigit =
        ("1234567890" : String).toList.filter Char.isDigit →
      RealBarcodeDecoder.validateBarcode "a12-34 5678x90b" =
        RealBarcodeDecoder.validateBarcode "1234567890") :=
  ⟨(validate_barcode_digit_count "a12-34 5678x90b").1,
   (validate_barcode_digit_count "a12-34 5678x90b").2 "1234567890"⟩

/-- C4 counterexample: the 7-module candidate `0001001` agrees with the
table entry of digit 0 (`0001101`) in 6 of 7 positions and with the
entry of digit 9 (`0001011`) in 6 of 7 positions — an ambiguous tie
under the 80% tolerance — yet `decodeEAN13LeftDigit` resolves it to the
first matching digit `'0'` instead of rejecting it; moreover the
tolerance is not uniform across decoders: a 5-of-7 agreement passes the
`ImprovedBarcodeScanner` matcher (70%) but fails the
`RealBarcodeDecoder` one (80%). -/
theorem ambiguous_pattern_not_rejected :
    RealBarcodeDecoder.patternMatch (jsJoin [0, 0, 0, 1, 0, 0, 1]) (jsJoin [0, 0, 0, 1, 1, 0, 1]) = true ∧
    RealBarcodeDecoder.patternMatch (jsJoin [0, 0, 0, 1, 0, 0, 1]) (jsJoin [0, 0, 0, 1, 0, 1, 1]) = true ∧
    RealBarcodeDecoder.decodeEAN13LeftDigit [0, 0, 0, 1, 0, 0, 1] = some '0' ∧
    ImprovedBarcodeScanner.patternMatch "0001101" "0011001" = true ∧
    RealBarcodeDecoder.patternMatch "0001101" "0011001" = false := by
  decide

/-- C4 as amended: on 7-module patterns `RealBarcodeDecoder.patternMatch`
accepts exactly when at least 6 of 7 positions agree (the 80% rule),
while `ImprovedBarcodeScanner.patternMatch` accepts already at 5 of 7
agreements (70%); ambiguous ties are resolved to the first matching
table entry, not rejected. -/
theorem pattern_match_thresholds :
    ∀ p1 p2 : String, p1.length = 7 → p2.length = 7 →
      (RealBarcodeDecoder.patternMatch p1 p2 = true ↔
        6 ≤ RealBarcodeDecoder.matchCount p1 p2) ∧
      (ImprovedBarcodeScanner.patternMatch p1 p2 = true ↔
        5 ≤ RealBarcodeDecoder.matchCount p1 p2) := by
  intro p1 p2 h1 h2
  have hne : ¬ p1.length ≠ p2.length := by rw [h1, h2]; exact fun h => h rfl
  constructor
  · rw [RealBarcodeDecoder.patternMatch, if_neg hne, decide_eq_true_iff, h1]
    constructor
    · intro h
      by_contra hc
      push_neg at hc
      have hm : (RealBarcodeDecoder.matchCount p1 p2 : ℚ) ≤ 5 := by
        exact_mod_cast Nat.lt_succ_iff.mp hc
      have : ((7 : ℕ) : ℚ) * (8 / 10) ≤ 5 := le_trans h hm
      norm_num at this
    · intro h
      have hm : (6 : ℚ) ≤ (RealBarcodeDecoder.matchCount p1 p2 : ℚ) := by exact_mod_cast h
      have h78 : ((7 : ℕ) : ℚ) * (8 / 10) ≤ 6 := by norm_num
      linarith
  · rw [ImprovedBarcodeScanner.patternMatch, if_neg hne, decide_eq_true_iff, h1]
    constructor
    · intro h
      by_contra hc
      push_neg at hc
      have hm : (RealBarcodeDecoder.matchCount p1 p2 : ℚ) ≤ 4 := by
        exact_mod_cast Nat.lt_succ_iff.mp hc
      have : ((7 : ℕ) : ℚ) * (7 / 10) ≤ 4 := le_trans h hm
      norm_num at this
    · intro h
      have hm : (5 : ℚ) ≤ (RealBarcodeDecoder.matchCount p1 p2 : ℚ) := by exact_mod_cast h
      have h77 : ((7 : ℕ) : ℚ) * (7 / 10) ≤ 5 := by norm_num
      linarith

/-- Witness for the amended C4 at a concrete pair of 7-module patterns
agreeing in 5 positions. -/
theorem pattern_match_thresholds_witness :
    ("0001101" : String).length = 7 ∧ ("0011001" : String).length = 7 ∧
    ((RealBarcodeDecoder.patternMatch "0001101" "0011001" = true ↔
        6 ≤ RealBarcodeDecoder.matchCount "0001101" "0011001") ∧
      (ImprovedBarcodeScanner.patternMatch "0001101" "0011001" = true ↔
        5 ≤ RealBarcodeDecoder.matchCount "0001101" "0011001")) :=
  ⟨by decide, by decide,
   pattern_match_thresholds "0001101" "0011001" (by decide) (by decide)⟩

/-- Helper: the index-weighted loop sum of `calculateEAN13CheckDigit`
expressed as a finite sum with explicit weights. -/
theorem ean13WeightedSum_eq (l : List Char) :
    ∀ i, RealBarcodeDecoder.ean13WeightedSum i l =
      ∑ j ∈ Finset.range l.length,
        RealBarcodeDecoder.digitVal (l.getD j ' ') * (if (i + j) % 2 = 0 then 1 else 3) := by
  induction l with
  | nil => intro i; simp [RealBarcodeDecoder.ean13WeightedSum]
  | cons c cs ih =>
    intro i
    rw [RealBarcodeDecoder.ean13WeightedSum, List.length_cons, Finset.sum_range_succ',
      ih (i + 1), Nat.add_comm]
    congr 1
    · apply Finset.sum_congr rfl
      intro j _
      have hg : (c :: cs).getD (j + 1) ' ' = cs.getD j ' ' := by simp
      have ha : i + 1 + j = i + (j + 1) := by omega
      rw [hg, ha]
    · have hg : (c :: cs).getD 0 ' ' = c := by simp
      rw [hg, Nat.add_zero]
      by_cases h : i % 2 = 0 <;> simp [h]

/-- C8: for 12-digit strings the check digit computed by
`calculateEAN13CheckDigit` is exactly
`(10 − (Σ digit·weight mod 10)) mod 10` with weight 1 at even 0-based
positions and 3 at odd ones (determinism is immediate: the embedding is
a pure function of its argument). -/
theorem ean13_check_digit_formula :
    ∀ d : String, d.length = 12 → (∀ c ∈ d.toList, c.isDigit = true) →
      RealBarcodeDecoder.calculateEAN13CheckDigit d =
        Nat.repr ((10 - (∑ i ∈ Finset.range 12,
          RealBarcodeDecoder.digitVal (d.toList.getD i ' ') *
            (if i % 2 = 0 then 1 else 3)) % 10) % 10) := by
  intro d hlen _
  rw [RealBarcodeDecoder.calculateEAN13CheckDigit, ean13WeightedSum_eq]
  have hl : d.toList.length = 12 := hlen
  rw [hl]
  simp only [Nat.zero_add]

/-- Witness for C8 at the digit string "590123412345". -/
theorem ean13_check_digit_formula_witness :
    ("590123412345" : String).length = 12 ∧
    (∀ c ∈ ("590123412345" : String).toList, c.isDigit = true) ∧
    RealBarcodeDecoder.calculateEAN13CheckDigit "590123412345" =
      Nat.repr ((10 - (∑ i ∈ Finset.range 12,
        RealBarcodeDecoder.digitVal (("590123412345" : String).toList.getD i ' ') *
          (if i % 2 = 0 then 1 else 3)) % 10) % 10) :=
  ⟨by decide, by decide, ean13_check_digit_formula "590123412345" (by decide) (by decide)⟩

/-- Helper: adjacent pairs of a strictly increasing list are strictly
increasing. -/
theorem zip_tail_lt : ∀ {l : List ℕ}, l.Pairwise (· < ·) →
    ∀ p ∈ l.zip l.tail, p.1 < p.2 := by
  intro l
  induction l with
  | nil => intro _ p hp; simp at hp
  | cons a t ih =>
    intro h p hp
    cases t with
    | nil => simp at hp
    | cons b t' =>
      rw [List.tail_cons, List.zip_cons_cons] at hp
      rcases List.mem_cons.mp hp with rfl | hp'
      · exact (List.pairwise_cons.mp h).1 b (by simp)
      · exact ih (List.Pairwise.of_cons h) p hp'

/-- Helper: the fold computing `Math.min` is below the seed and every
element. -/
theorem foldl_min_le (l : List ℤ) : ∀ a : ℤ,
    l.foldl min a ≤ a ∧ ∀ w ∈ l, l.foldl min a ≤ w := by
  induction l with
  | nil => intro a; exact ⟨le_refl a, by intro w hw; simp at hw⟩
  | cons b t ih =>
    intro a
    constructor
    · exact le_trans (ih (min a b)).1 (min_le_left a b)
    · intro w hw
      rcases List.mem_cons.mp hw with rfl | hw'
      · exact le_trans (ih (min a w)).1 (min_le_right a w)
      · exact (ih (min a b)).2 w hw'

/-- Helper: `minWidth` is a lower bound of the list. -/
theorem minWidth_le {l : List ℤ} {w : ℤ} (hw : w ∈ l) :
    RealBarcodeDecoder.minWidth l ≤ w := by
  cases l with
  | nil => simp at hw
  | cons h t =>
    rcases List.mem_cons.mp hw with rfl | hw'
    · exact (foldl_min_le t w).1
    · exact (foldl_min_le t h).2 w hw'

/-- Helper: the `Math.min` fold yields the seed or an element. -/
theorem foldl_min_mem (l : List ℤ) : ∀ a : ℤ,
    l.foldl min a = a ∨ l.foldl min a ∈ l := by
  induction l with
  | nil => intro a; exact Or.inl rfl
  | cons b t ih =>
    intro a
    simp only [List.foldl_cons]
    rcases ih (min a b) with h | h
    · rcases min_choice a b with hm | hm
      · exact Or.inl (h.trans hm)
      · exact Or.inr (by rw [h, hm]; exact List.mem_cons_self b t)
    · exact Or.inr (List.mem_cons_of_mem b h)

/-- Helper: `minWidth` of a non-empty list of values at least 1 is at
least 1. -/
theorem one_le_minWidth {l : List ℤ} (hne : l ≠ []) (h1 : ∀ w ∈ l, 1 ≤ w) :
    1 ≤ RealBarcodeDecoder.minWidth l := by
  cases l with
  | nil => exact absurd rfl hne
  | cons h t =>
    rcases foldl_min_mem t h with hm | hm
    · rw [RealBarcodeDecoder.minWidth, hm]
      exact h1 h (List.mem_cons_self h t)
    · rw [RealBarcodeDecoder.minWidth]
      exact h1 _ (List.mem_cons_of_mem h hm)

/-- C7 as amended: on the minimum-normalizing scan path of
`realBarcodeDecoder.ts`, every normalized bar width derived from the
transitions of any intensity line is an integer greater than or equal
to 1; the `barcodeScanner.ts` path instead normalizes by the AVERAGE
width and can produce 0 (see the counterexample). -/
theorem min_normalized_widths_positive :
    ∀ line : List ℕ, ∀ v ∈ RealBarcodeDecoder.normalizeWidths
        (RealBarcodeDecoder.barWidthsOf (RealBarcodeDecoder.lineTransitions line)),
      1 ≤ v := by
  intro line v hv
  have hsorted : (RealBarcodeDecoder.lineTransitions line).Pairwise (· < ·) := by
    unfold RealBarcodeDecoder.lineTransitions RealBarcodeDecoder.findTransitions
    exact (List.pairwise_lt_range' 1 _).sublist (List.filter_sublist _)
  have hwidths : ∀ w ∈ RealBarcodeDecoder.barWidthsOf
      (RealBarcodeDecoder.lineTransitions line), 1 ≤ w := by
    intro w hw
    unfold RealBarcodeDecoder.barWidthsOf at hw
    obtain ⟨p, hp, rfl⟩ := List.mem_map.mp hw
    have hlt := zip_tail_lt hsorted p hp
    have hz : (p.1 : ℤ) < (p.2 : ℤ) := by exact_mod_cast hlt
    omega
  rw [RealBarcodeDecoder.normalizeWidths] at hv
  obtain ⟨w, hw, rfl⟩ := List.mem_map.mp hv
  have hne : RealBarcodeDecoder.barWidthsOf (RealBarcodeDecoder.lineTransitions line) ≠ [] := by
    intro h0
    rw [h0] at hw
    exact absurd hw (List.not_mem_nil w)
  have hm1 := one_le_minWidth hne hwidths
  have hmw := minWidth_le hw
  unfold jsRound
  rw [Int.le_floor]
  have hmpos : (0 : ℚ) <
      ((RealBarcodeDecoder.minWidth (RealBarcodeDecoder.barWidthsOf
        (RealBarcodeDecoder.lineTransitions line)) : ℤ) : ℚ) := by
    exact_mod_cast lt_of_lt_of_le Int.zero_lt_one hm1
  have hq : (1 : ℚ) ≤ (w : ℚ) /
      ((RealBarcodeDecoder.minWidth (RealBarcodeDecoder.barWidthsOf
        (RealBarcodeDecoder.lineTransitions line)) : ℤ) : ℚ) := by
    rw [le_div_iff₀ hmpos, one_mul]
    exact_mod_cast hmw
  push_cast
  linarith

/-- Witness for the amended C7 on a concrete line whose Otsu threshold
is 100: transitions [1, 3, 4], bar widths [2, 1], normalized [2, 1]. -/
theorem min_normalized_widths_positive_witness :
    (2 : ℤ) ∈ RealBarcodeDecoder.normalizeWidths
        (RealBarcodeDecoder.barWidthsOf
          (RealBarcodeDecoder.lineTransitions [0, 100, 255, 0, 100, 255])) ∧
    (1 : ℤ) ≤ 2 :=
  ⟨by decide, min_normalized_widths_positive [0, 100, 255, 0, 100, 255] 2 (by decide)⟩

/-- C7 counterexample: a 21-transition list (past the ≥20 gate of
`decodeBarcodeFromTransitions`) whose bar widths alternate 1 and 9; the
`barcodeScanner.ts` normalization divides by the average width 5 and
rounds 1/5 to 0, so the produced BarWidths sequence contains 0 — not a
positive integer. -/
theorem avg_normalized_width_zero :
    ¬ (([0, 1, 10, 11, 20, 21, 30, 31, 40, 41, 50, 51, 60, 61, 70, 71, 80, 81, 90, 91,
        100] : List ℕ).length < 20) ∧
    (0 : ℤ) ∈ BarcodeScanner.normalizedWidthsOfTransitions
      [0, 1, 10, 11, 20, 21, 30, 31, 40, 41, 50, 51, 60, 61, 70, 71, 80, 81, 90, 91, 100] := by
  decide

/-- Helper: every key of the left pattern table is a digit character. -/
theorem left_table_keys_digit :
    ∀ e ∈ RealBarcodeDecoder.EAN13_LEFT_PATTERNS, e.1.isDigit = true := by decide

/-- Helper: every key of the right pattern table is a digit character. -/
theorem right_table_keys_digit :
    ∀ e ∈ RealBarcodeDecoder.EAN13_RIGHT_PATTERNS, e.1.isDigit = true := by decide

/-- Helper: a decoded left digit is a digit character. -/
theorem decodeEAN13LeftDigit_isDigit {p : List ℤ} {c : Char}
    (h : RealBarcodeDecoder.decodeEAN13LeftDigit p = some c) : c.isDigit = true := by
  rw [RealBarcodeDecoder.decodeEAN13LeftDigit] at h
  by_cases h7 : p.length ≠ 7
  · rw [if_pos h7] at h; exact Option.noConfusion h
  · rw [if_neg h7] at h
    obtain ⟨e, hfind, rfl⟩ := Option.map_eq_some'.mp h
    exact left_table_keys_digit e (List.mem_of_find?_eq_some hfind)

/-- Helper: a decoded right digit is a digit character. -/
theorem decodeEAN13RightDigit_isDigit {p : List ℤ} {c : Char}
    (h : RealBarcodeDecoder.decodeEAN13RightDigit p = some c) : c.isDigit = true := by
  rw [RealBarcodeDecoder.decodeEAN13RightDigit] at h
  by_cases h7 : p.length ≠ 7
  · rw [if_pos h7] at h; exact Option.noConfusion h
  · rw [if_neg h7] at h
    obtain ⟨e, hfind, rfl⟩ := Option.map_eq_some'.mp h
    exact right_table_keys_digit e (List.mem_of_find?_eq_some hfind)

/-- Helper: every character collected by the digit-extraction loop comes
from a successful digit decode. -/
theorem extractDigitsLoop_digits
    {dec : List ℤ → Option Char} {widths : List ℤ}
    (hdec : ∀ p c, dec p = some c → c.isDigit = true) :
    ∀ (n cur : ℕ) (l : List Char) (cur' : ℕ),
      RealBarcodeDecoder.extractDigitsLoop dec widths n cur = some (l, cur') →
      ∀ c ∈ l, c.isDigit = true := by
  intro n
  induction n with
  | zero =>
    intro cur l cur' h c hc
    simp only [RealBarcodeDecoder.extractDigitsLoop, Option.some.injEq,
      Prod.mk.injEq] at h
    rw [← h.1] at hc
    exact absurd hc (List.not_mem_nil c)
  | succ k ih =>
    intro cur l cur' h c hc
    rw [RealBarcodeDecoder.extractDigitsLoop] at h
    by_cases hb : cur + 7 > widths.length
    · rw [if_pos hb] at h
      simp only [Option.some.injEq, Prod.mk.injEq] at h
      rw [← h.1] at hc
      exact absurd hc (List.not_mem_nil c)
    · rw [if_neg hb] at h
      cases hd : dec ((widths.drop cur).take 7) with
      | none => rw [hd] at h; exact Option.noConfusion h
      | some d =>
        rw [hd] at h
        obtain ⟨⟨l0, cur0⟩, hrec, heq⟩ := Option.map_eq_some'.mp h
        simp only [Prod.mk.injEq] at heq
        rw [← heq.1] at hc
        rcases List.mem_cons.mp hc with rfl | hc'
        · exact hdec _ _ hd
        · exact ih (cur + 7) l0 cur0 hrec c hc'

/-- Helper: characters of extracted left digits are digit characters. -/
theorem extractEAN13LeftDigits_digits {widths : List ℤ} {start : ℕ} {l : List Char}
    (h : RealBarcodeDecoder.extractEAN13LeftDigits widths start = some l) :
    ∀ c ∈ l, c.isDigit = true := by
  rw [RealBarcodeDecoder.extractEAN13LeftDigits] at h
  obtain ⟨⟨l0, cur0⟩, hloop, heq⟩ := Option.map_eq_some'.mp h
  intro c hc
  rw [← heq] at hc
  exact extractDigitsLoop_digits (fun p c h => decodeEAN13LeftDigit_isDigit h)
    6 start l0 cur0 hloop c hc

/-- Helper: characters of extracted right digits are digit characters. -/
theorem extractEAN13RightDigits_digits {widths : List ℤ} {start : ℕ} {l : List Char}
    (h : RealBarcodeDecoder.extractEAN13RightDigits widths start = some l) :
    ∀ c ∈ l, c.isDigit = true := by
  rw [RealBarcodeDecoder.extractEAN13RightDigits] at h
  obtain ⟨⟨l0, cur0⟩, hloop, heq⟩ := Option.map_eq_some'.mp h
  intro c hc
  rw [← heq] at hc
  exact extractDigitsLoop_digits (fun p c h => decodeEAN13RightDigit_isDigit h)
    6 start l0 cur0 hloop c hc

/-- Helper: inversion of a successful `decodeEAN13` run.  The result is
the 12 symbol digits (exactly what `specEAN13SymbolDigits` reads, all
digit characters) with the computed check digit appended. -/
theorem decodeEAN13_inversion {widths : List ℤ} {s : String}
    (h : RealBarcodeDecoder.decodeEAN13 widths = some s) :
    ∃ ds : String, RealBarcodeDecoder.specEAN13SymbolDigits widths = some ds ∧
      ds.toList.length = 12 ∧ (∀ c ∈ ds.toList, c.isDigit = true) ∧
      s = ds ++ RealBarcodeDecoder.calculateEAN13CheckDigit ds := by
  have h95 : ¬ widths.length < 95 := by
    intro hc
    rw [RealBarcodeDecoder.decodeEAN13, if_pos hc] at h
    exact Option.noConfusion h
  rw [RealBarcodeDecoder.decodeEAN13, if_neg h95] at h
  cases hstart : RealBarcodeDecoder.findStartGuard widths with
  | none => simp only [hstart] at h; exact Option.noConfusion h
  | some startIndex =>
  simp only [hstart] at h
  cases hleft : RealBarcodeDecoder.extractEAN13LeftDigits widths (startIndex + 3) with
  | none => simp only [hleft] at h; exact Option.noConfusion h
  | some L =>
  simp only [hleft] at h
  by_cases hL6 : L.length ≠ 6
  · rw [if_pos hL6] at h; exact Option.noConfusion h
  rw [if_neg hL6] at h
  by_cases hmb : startIndex + 3 + 6 * 7 + 4 ≥ widths.length
  · rw [if_pos hmb] at h; exact Option.noConfusion h
  rw [if_neg hmb] at h
  by_cases hmp : ¬(widths.getD (startIndex + 3 + 6 * 7) 0 = 0 ∧
      widths.getD (startIndex + 3 + 6 * 7 + 1) 0 = 1 ∧
      widths.getD (startIndex + 3 + 6 * 7 + 2) 0 = 0 ∧
      widths.getD (startIndex + 3 + 6 * 7 + 3) 0 = 1 ∧
      widths.getD (startIndex + 3 + 6 * 7 + 4) 0 = 0)
  · rw [if_pos hmp] at h; exact Option.noConfusion h
  rw [if_neg hmp] at h
  cases hright : RealBarcodeDecoder.extractEAN13RightDigits widths
      (startIndex + 3 + 6 * 7 + 5) with
  | none => simp only [hright] at h; exact Option.noConfusion h
  | some R =>
  simp only [hright] at h
  by_cases hR6 : R.length ≠ 6
  · rw [if_pos hR6] at h; exact Option.noConfusion h
  rw [if_neg hR6] at h
  have hs : s = String.mk (L ++ R) ++
      RealBarcodeDecoder.calculateEAN13CheckDigit (String.mk (L ++ R)) := by
    injection h with h'
    exact h'.symm
  refine ⟨String.mk (L ++ R), ?_, ?_, ?_, hs⟩
  · rw [RealBarcodeDecoder.specEAN13SymbolDigits, if_neg h95]
    simp only [hstart, hleft, hright]
    rw [if_neg hL6, if_neg hmb, if_neg hmp, if_neg hR6]
  · show (L ++ R).length = 12
    rw [List.length_append]
    omega
  · intro c hc
    rcases List.mem_append.mp hc with hcl | hcr
    · exact extractEAN13LeftDigits_digits hleft c hcl
    · exact extractEAN13RightDigits_digits hright c hcr

/-- C1 counterexample: `ean13BadChecksumWidths` structurally matches all
EAN-13 guards and encodes the digits `000000000005`; read as a genuine
EAN-13 symbol its encoded check digit `5` differs from the checksum `0`
of its first twelve digits, yet `decodeEAN13` does not return `null` —
it returns a payload with a freshly computed check digit appended. -/
theorem ean13_checksum_invalid_symbol_decoded :
    RealBarcodeDecoder.specEAN13SymbolDigits ean13BadChecksumWidths =
      some "000000000005" ∧
    RealBarcodeDecoder.calculateEAN13CheckDigit "000000000000" ≠ "5" ∧
    RealBarcodeDecoder.decodeEAN13 ean13BadChecksumWidths = some "0000000000055" := by
  refine ⟨by decide, by decide, by decide⟩

/-- C1 as amended: `decodeEAN13` performs no checksum validation at
all — whenever it succeeds, its result is exactly the 12 digits read
from the symbol with the COMPUTED check digit appended, so every
returned payload is checksum-self-consistent by construction, but a
structurally matching symbol whose encoded check digit is wrong is not
rejected. -/
theorem ean13_decode_appends_computed_check :
    ∀ (widths : List ℤ) (s : String),
      RealBarcodeDecoder.decodeEAN13 widths = some s →
      ∃ ds : String, RealBarcodeDecoder.specEAN13SymbolDigits widths = some ds ∧
        ds.length = 12 ∧
        s = ds ++ RealBarcodeDecoder.calculateEAN13CheckDigit ds := by
  intro widths s h
  obtain ⟨ds, hspec, hlen, _, hs⟩ := decodeEAN13_inversion h
  exact ⟨ds, hspec, hlen, hs⟩

/-- Witness for the amended C1 at the concrete symbol
`ean13BadChecksumWidths`. -/
theorem ean13_decode_appends_computed_check_witness :
    ∃ ds : String,
      RealBarcodeDecoder.specEAN13SymbolDigits ean13BadChecksumWidths = some ds ∧
      ds.length = 12 ∧
      "0000000000055" = ds ++ RealBarcodeDecoder.calculateEAN13CheckDigit ds :=
  ean13_decode_appends_computed_check ean13BadChecksumWidths "0000000000055" (by decide)

/-- Helper: `Nat.repr` of a value below 10 is a single digit
character. -/
theorem natRepr_digit : ∀ n < 10, (Nat.repr n).toList.length = 1 ∧
    ∀ c ∈ (Nat.repr n).toList, c.isDigit = true := by decide

/-- Helper: the check digit string always is one digit character. -/
theorem calculateEAN13CheckDigit_digit (d : String) :
    (RealBarcodeDecoder.calculateEAN13CheckDigit d).toList.length = 1 ∧
    ∀ c ∈ (RealBarcodeDecoder.calculateEAN13CheckDigit d).toList, c.isDigit = true := by
  rw [RealBarcodeDecoder.calculateEAN13CheckDigit]
  exact natRepr_digit _ (Nat.mod_lt _ (by norm_num))

/-- C10: every successful `decodeEAN13` result is a 13-character digit
string whose last character is `calculateEAN13CheckDigit` of its first
12 characters, and it passes `validateBarcode`. -/
theorem ean13_decode_result_well_formed :
    ∀ (widths : List ℤ) (s : String),
      RealBarcodeDecoder.decodeEAN13 widths = some s →
      s.length = 13 ∧ (∀ c ∈ s.toList, c.isDigit = true) ∧
      String.mk (s.toList.drop 12) =
        RealBarcodeDecoder.calculateEAN13CheckDigit (String.mk (s.toList.take 12)) ∧
      RealBarcodeDecoder.validateBarcode s = true := by
  intro widths s h
  obtain ⟨ds, _, hlen, hdig, hs⟩ := decodeEAN13_inversion h
  obtain ⟨hclen, hcdig⟩ := calculateEAN13CheckDigit_digit ds
  have hsl : s.toList = ds.toList ++
      (RealBarcodeDecoder.calculateEAN13CheckDigit ds).toList := by
    rw [hs]; rfl
  have hslen : s.toList.length = 13 := by
    rw [hsl, List.length_append, hlen, hclen]
  have hall : ∀ c ∈ s.toList, c.isDigit = true := by
    intro c hc
    rw [hsl] at hc
    rcases List.mem_append.mp hc with hc1 | hc2
    · exact hdig c hc1
    · exact hcdig c hc2
  have htake : s.toList.take 12 = ds.toList := by
    rw [hsl, List.take_left' hlen]
  have hdrop : s.toList.drop 12 =
      (RealBarcodeDecoder.calculateEAN13CheckDigit ds).toList := by
    rw [hsl, List.drop_left' hlen]
  refine ⟨hslen, hall, ?_, ?_⟩
  · rw [hdrop, htake]
    rfl
  · rw [RealBarcodeDecoder.validateBarcode]
    have hf : s.toList.filter Char.isDigit = s.toList := List.filter_eq_self.mpr hall
    show (decide (8 ≤ (String.mk (s.toList.filter Char.isDigit)).length) &&
      decide ((String.mk (s.toList.filter Char.isDigit)).length ≤ 20)) = true
    rw [hf]
    have : (String.mk s.toList).length = 13 := hslen
    rw [this]
    rfl

/-- Witness for C10 at the concrete symbol `ean13BadChecksumWidths`. -/
theorem ean13_decode_result_well_formed_witness :
    ("0000000000055" : String).length = 13 ∧
    (∀ c ∈ ("0000000000055" : String).toList, c.isDigit = true) ∧
    String.mk (("0000000000055" : String).toList.drop 12) =
      RealBarcodeDecoder.calculateEAN13CheckDigit
        (String.mk (("0000000000055" : String).toList.take 12)) ∧
    RealBarcodeDecoder.validateBarcode "0000000000055" = true :=
  ean13_decode_result_well_formed ean13BadChecksumWidths "0000000000055" (by decide)

end BarcodeBackend
